import Mathlib

/-!
Shallow embedding of the go-banking backend: the in-memory ledger store
(store/store.go), the data model (models/models.go), the Bank Z mock client
(bankz package), and the transfer / onboarding handlers (main package).

Modelling conventions:
- Go `map[string]T` becomes a function `String → Option T`; `m[k] = v` is a
  pointwise functional update (Go map assignment overwrites on key collision,
  and so does the embedding).
- Go `float64` amounts become exact rationals `ℚ` (the spec's "signed
  decimal"); the literal fee/interest rates 0.0005 and 0.005 are exact.
- `time.Now()` (used for timestamps, token expiry, and generated bankz IDs)
  becomes an explicit `now : Int` parameter, in nanoseconds as in Go's
  `UnixNano`; `uuid.New().String()` becomes explicit fresh-ID parameters.
- The global `bankzClient` the handlers call is abstracted as a `Gateway`
  record of the three operations the engine uses, threaded as explicit
  state; `mockGateway` instantiates it with the bankz mock client code.
-/

namespace GoBanking

/-- Customer record (models.Customer). -/
structure Customer where
  id : String
  name : String
  email : String
deriving DecidableEq, Repr

/-- Account record (models.Account); `kind` embeds the Go field `Type`
("current" or "savings"); `createdAt` is a UnixNano timestamp. -/
structure Account where
  id : String
  customerId : String
  kind : String
  balance : ℚ
  createdAt : Int
deriving DecidableEq, Repr

/-- Transaction record (models.Transaction); `kind` embeds the Go field
`Type`; absent from/to account IDs are the empty string (Go zero value). -/
structure Transaction where
  id : String
  accountId : String
  customerId : String
  kind : String
  amount : ℚ
  fromAccountId : String
  toAccountId : String
  createdAt : Int
deriving DecidableEq, Repr

/-- The in-memory store (store.Store): three maps keyed by ID. -/
structure Store where
  customers : String → Option Customer
  accounts : String → Option Account
  transactions : String → Option Transaction

/-- Store.AddCustomer: `s.customers[customer.ID] = customer`. -/
def AddCustomer (s : Store) (c : Customer) : Store :=
  { s with customers := fun k => if k = c.id then some c else s.customers k }

/-- Store.GetCustomerByID. -/
def GetCustomerByID (s : Store) (id : String) : Option Customer :=
  s.customers id

/-- Store.AddAccount: `s.accounts[account.ID] = account`. -/
def AddAccount (s : Store) (a : Account) : Store :=
  { s with accounts := fun k => if k = a.id then some a else s.accounts k }

/-- Store.GetAccountByID. -/
def GetAccountByID (s : Store) (id : String) : Option Account :=
  s.accounts id

/-- Store.UpdateAccount: full replace of the stored record by ID (same map
assignment as AddAccount). -/
def UpdateAccount (s : Store) (a : Account) : Store :=
  { s with accounts := fun k => if k = a.id then some a else s.accounts k }

/-- Store.AddTransaction: `s.transactions[transaction.ID] = transaction`. -/
def AddTransaction (s : Store) (t : Transaction) : Store :=
  { s with transactions := fun k => if k = t.id then some t else s.transactions k }

/-- The store with no records, as GlobalStore starts. -/
def emptyStore : Store :=
  { customers := fun _ => none, accounts := fun _ => none, transactions := fun _ => none }

/-- One mutating store operation (the four mutators of store.go). -/
inductive StoreOp where
  | addCustomer (c : Customer)
  | addAccount (a : Account)
  | updateAccount (a : Account)
  | addTransaction (t : Transaction)
deriving DecidableEq, Repr

/-- Apply one store operation. -/
def applyOp (s : Store) : StoreOp → Store
  | StoreOp.addCustomer c => AddCustomer s c
  | StoreOp.addAccount a => AddAccount s a
  | StoreOp.updateAccount a => UpdateAccount s a
  | StoreOp.addTransaction t => AddTransaction s t

/-- Apply a sequence of store operations in order. -/
def applyOps (s : Store) (ops : List StoreOp) : Store :=
  ops.foldl applyOp s

/-- Whether an operation stores a transaction under the given ID. -/
def opAddsTxId (op : StoreOp) (id : String) : Prop :=
  match op with
  | StoreOp.addTransaction t => t.id = id
  | _ => False

instance (op : StoreOp) (id : String) : Decidable (opAddsTxId op id) := by
  cases op <;> simp [opAddsTxId] <;> infer_instance

/-! ### Bank Z mock client (bankz package) -/

/-- Nanoseconds in one hour (`1 * time.Hour`). -/
def nsPerHour : Int := 3600000000000

/-- bankz.MockAccount. -/
structure MockAccount where
  accountId : String
  balance : ℚ
deriving DecidableEq, Repr

/-- bankz.Token: an OAuth access token with its expiry (UnixNano). -/
structure BankToken where
  accessToken : String
  expiresAt : Int
deriving DecidableEq, Repr

/-- bankz.MockClient state. -/
structure MockClient where
  accounts : String → Option MockAccount
  clientID : String
  clientSecret : String
  token : Option BankToken

/-- bankz.NewMockClient: two seeded partner accounts, fixed credentials,
no cached token. -/
def NewMockClient : MockClient :=
  { accounts := fun id =>
      if id = "bankz-acc-123" then some { accountId := "bankz-acc-123", balance := 1000 }
      else if id = "bankz-acc-456" then some { accountId := "bankz-acc-456", balance := 500 }
      else none
    clientID := "mock-client-id"
    clientSecret := "mock-client-secret"
    token := none }

/-- The mint-a-new-token tail of bankz.GetToken: credential check, then a new
token valid for one hour is generated and cached. -/
def mintToken (c : MockClient) (now : Int) : Except String String × MockClient :=
  if c.clientID ≠ "mock-client-id" ∨ c.clientSecret ≠ "mock-client-secret" then
    (Except.error "invalid client credentials", c)
  else
    let tokenID := "token-" ++ toString now
    (Except.ok tokenID,
      { c with token := some { accessToken := tokenID, expiresAt := now + nsPerHour } })

/-- bankz.GetToken: return the cached token if it exists and its expiry is
strictly after `now` (`ExpiresAt.After(time.Now())`); otherwise mint. -/
def GetToken (c : MockClient) (now : Int) : Except String String × MockClient :=
  match c.token with
  | some t => if now < t.expiresAt then (Except.ok t.accessToken, c) else mintToken c now
  | none => mintToken c now

/-- bankz.validateToken: fails when no token is cached, the supplied string
differs from the cached token, or the expiry is strictly before `now`. -/
def validateToken (c : MockClient) (token : String) (now : Int) : Except String Unit :=
  match c.token with
  | none => Except.error "invalid or expired token"
  | some t =>
      if t.accessToken ≠ token ∨ t.expiresAt < now then
        Except.error "invalid or expired token"
      else Except.ok ()

/-- bankz.GetBalance: validate the token, then look up the partner account. -/
def GetBalance (c : MockClient) (accountID token : String) (now : Int) :
    Except String ℚ × MockClient :=
  match validateToken c token now with
  | Except.error e => (Except.error e, c)
  | Except.ok _ =>
      match c.accounts accountID with
      | none => (Except.error ("Bank Z account " ++ accountID ++ " not found"), c)
      | some a => (Except.ok a.balance, c)

/-- bankz.InitiateTransfer: validate token, require amount > 0 and an existing
destination partner account, credit it, and return a fresh time-derived ID. -/
def InitiateTransfer (c : MockClient) (fromAccountID toAccountID token : String)
    (amount : ℚ) (now : Int) : Except String String × MockClient :=
  match validateToken c token now with
  | Except.error e => (Except.error e, c)
  | Except.ok _ =>
      if amount ≤ 0 then (Except.error "amount must be positive", c)
      else
        match c.accounts toAccountID with
        | none =>
            (Except.error ("destination Bank Z account " ++ toAccountID ++ " not found"), c)
        | some a =>
            let credited : MockAccount := { accountId := toAccountID, balance := a.balance + amount }
            let c2 : MockClient :=
              { c with accounts := fun k => if k = toAccountID then some credited else c.accounts k }
            (Except.ok ("bankz-tx-" ++ toString now), c2)

/-- The partner-gateway interface the transfer engine calls (the three
bankzClient methods used by transferMoney), with explicit client state. -/
structure Gateway (γ : Type) where
  getToken : γ → Except String String × γ
  getBalance : γ → String → String → Except String ℚ × γ
  initiateTransfer : γ → String → String → String → ℚ → Except String String × γ

/-- The mock client as a Gateway instance, at a fixed call time `now`. -/
def mockGateway (now : Int) : Gateway MockClient :=
  { getToken := fun c => GetToken c now
    getBalance := fun c accountID token => GetBalance c accountID token now
    initiateTransfer := fun c fromID toID token amount =>
      InitiateTransfer c fromID toID token amount now }

/-! ### Transfer engine (transferMoney handler) -/

/-- The distinct error outcomes of the transferMoney handler, one constructor
per return-with-error site. -/
inductive TransferError where
  | invalidInput (errs : List String)
  | customerNotFound
  | authFailed
  | sourceNotFound (id : String)
  | sourceNotOwned
  | destNotOwned
  | destinationNotFound (id : String)
  | insufficientFunds
  | gatewayError (msg : String)
deriving DecidableEq, Repr

/-- The transfer request body. -/
structure TransferRequest where
  fromAccountId : String
  toAccountId : String
  amount : ℚ
deriving DecidableEq, Repr

/-- The input-field validation block of transferMoney: all four checks run and
their error messages accumulate into one list. -/
def validateTransferRequest (req : TransferRequest) : List String :=
  (if req.fromAccountId = "" then ["From account ID cannot be empty"] else []) ++
  (if req.toAccountId = "" then ["To account ID cannot be empty"] else []) ++
  (if req.amount ≤ 0 then ["Amount must be positive"] else []) ++
  (if req.fromAccountId = req.toAccountId ∧ req.fromAccountId ≠ "" then
    ["Cannot transfer to the same account"] else [])

/-- The fee computation of the internal-transfer path: `amount * 0.0005` when
the source account kind is "current", else 0. -/
def transferFee (fromAccount : Account) (amount : ℚ) : ℚ :=
  if fromAccount.kind = "current" then amount * 0.0005 else 0

/-- The interest computation of the internal-transfer path: `amount * 0.005`
when the destination account kind is "savings", else 0. -/
def transferInterest (toAccount : Account) (amount : ℚ) : ℚ :=
  if toAccount.kind = "savings" then amount * 0.005 else 0

/-- The internal-transfer tail of transferMoney: fee for a current source,
sufficiency against amount + fee, interest for a savings destination, the two
balance updates, and the transfer / fee / interest transaction records. -/
def internalTransfer (customerID : String) (req : TransferRequest)
    (fromAccount toAccount : Account) (s : Store)
    (transferTxId feeTxId interestTxId : String) (now : Int) :
    Except TransferError String × Store :=
  let fee : ℚ := transferFee fromAccount req.amount
  let totalDeduction := req.amount + fee
  if fromAccount.balance < totalDeduction then
    (Except.error TransferError.insufficientFunds, s)
  else
    let interest : ℚ := transferInterest toAccount req.amount
    let s1 := UpdateAccount s { fromAccount with balance := fromAccount.balance - totalDeduction }
    let s2 := UpdateAccount s1 { toAccount with balance := toAccount.balance + (req.amount + interest) }
    let s3 := AddTransaction s2
      { id := transferTxId, accountId := fromAccount.id, customerId := customerID,
        kind := "transfer", amount := req.amount, fromAccountId := fromAccount.id,
        toAccountId := toAccount.id, createdAt := now }
    let s4 := if 0 < fee then
        AddTransaction s3
          { id := feeTxId, accountId := fromAccount.id, customerId := customerID,
            kind := "fee", amount := fee, fromAccountId := "", toAccountId := "",
            createdAt := now }
      else s3
    let s5 := if 0 < interest then
        AddTransaction s4
          { id := interestTxId, accountId := toAccount.id, customerId := customerID,
            kind := "interest", amount := interest, fromAccountId := "", toAccountId := "",
            createdAt := now }
      else s4
    (Except.ok transferTxId, s5)

/-- The external (Bank Z) transfer tail of transferMoney: sufficiency against
the bare amount, the gateway call, and only on gateway success the local debit
and the bankz_transfer record under the gateway-supplied transaction ID. -/
def externalTransfer {γ : Type} (G : Gateway γ) (customerID : String)
    (req : TransferRequest) (fromAccount : Account) (token : String)
    (s : Store) (g : γ) (now : Int) : Except TransferError String × Store × γ :=
  if fromAccount.balance < req.amount then
    (Except.error TransferError.insufficientFunds, s, g)
  else
    match G.initiateTransfer g fromAccount.id req.toAccountId token req.amount with
    | (Except.error e, g2) => (Except.error (TransferError.gatewayError e), s, g2)
    | (Except.ok transactionID, g2) =>
        let s1 := UpdateAccount s { fromAccount with balance := fromAccount.balance - req.amount }
        let s2 := AddTransaction s1
          { id := transactionID, accountId := fromAccount.id, customerId := customerID,
            kind := "bankz_transfer", amount := req.amount, fromAccountId := fromAccount.id,
            toAccountId := req.toAccountId, createdAt := now }
        (Except.ok transactionID, s2, g2)

/-- The transferMoney handler: input validation, customer lookup, token
acquisition, source account checks, destination resolution (local lookup, then
partner getBalance fallback), then the internal or external transfer tail. -/
def transferMoney {γ : Type} (G : Gateway γ) (customerID : String)
    (req : TransferRequest) (s : Store) (g : γ)
    (transferTxId feeTxId interestTxId : String) (now : Int) :
    Except TransferError String × Store × γ :=
  let errs := validateTransferRequest req
  if errs ≠ [] then (Except.error (TransferError.invalidInput errs), s, g) else
  match GetCustomerByID s customerID with
  | none => (Except.error TransferError.customerNotFound, s, g)
  | some _ =>
    match G.getToken g with
    | (Except.error _, g1) => (Except.error TransferError.authFailed, s, g1)
    | (Except.ok token, g1) =>
      match GetAccountByID s req.fromAccountId with
      | none => (Except.error (TransferError.sourceNotFound req.fromAccountId), s, g1)
      | some fromAccount =>
        if fromAccount.customerId ≠ customerID then
          (Except.error TransferError.sourceNotOwned, s, g1)
        else
          match GetAccountByID s req.toAccountId with
          | some toAccount =>
            if toAccount.customerId ≠ customerID then
              (Except.error TransferError.destNotOwned, s, g1)
            else
              match internalTransfer customerID req fromAccount toAccount s
                  transferTxId feeTxId interestTxId now with
              | (r, s2) => (r, s2, g1)
          | none =>
            match G.getBalance g1 req.toAccountId token with
            | (Except.ok _, g2) => externalTransfer G customerID req fromAccount token s g2 now
            | (Except.error _, g2) =>
                (Except.error (TransferError.destinationNotFound req.toAccountId), s, g2)

/-! ### Onboarding (createCustomer handler, post-validation writes) -/

/-- The createCustomer success response. -/
structure CreateCustomerResult where
  customerId : String
  currentAccountId : String
  savingsAccountId : String
deriving DecidableEq, Repr

/-- The write sequence of the createCustomer handler after input validation:
the customer, a zero-balance current account, a savings account seeded with
500.0, and the 500.0 bonus transaction on the savings account; the generated
IDs and shared timestamp are explicit parameters. -/
def createCustomer (name email : String)
    (customerID currentAccountID savingsAccountID bonusTransactionID : String)
    (now : Int) (s : Store) : CreateCustomerResult × Store :=
  let s1 := AddCustomer s { id := customerID, name := name, email := email }
  let s2 := AddAccount s1
    { id := currentAccountID, customerId := customerID, kind := "current",
      balance := 0, createdAt := now }
  let s3 := AddAccount s2
    { id := savingsAccountID, customerId := customerID, kind := "savings",
      balance := 500, createdAt := now }
  let s4 := AddTransaction s3
    { id := bonusTransactionID, accountId := savingsAccountID, customerId := customerID,
      kind := "bonus", amount := 500, fromAccountId := "", toAccountId := "",
      createdAt := now }
  ({ customerId := customerID, currentAccountId := currentAccountID,
     savingsAccountId := savingsAccountID }, s4)

/-- A constant-outcome gateway over trivial state, for concrete scenarios. -/
def constGateway (tokRes : Except String String) (balRes : Except String ℚ)
    (trRes : Except String String) : Gateway Unit :=
  { getToken := fun g => (tokRes, g)
    getBalance := fun g _ _ => (balRes, g)
    initiateTransfer := fun g _ _ _ _ => (trRes, g) }

/-! ### Helper lemmas -/

/-- An empty validation-error list pins down the four input conditions. -/
lemma validateTransferRequest_eq_nil {req : TransferRequest}
    (h : validateTransferRequest req = []) :
    req.fromAccountId ≠ "" ∧ req.toAccountId ≠ "" ∧ 0 < req.amount ∧
      req.fromAccountId ≠ req.toAccountId := by
  have h1 : req.fromAccountId ≠ "" := by
    intro he; simp [validateTransferRequest, he] at h
  have h2 : req.toAccountId ≠ "" := by
    intro he; simp [validateTransferRequest, he] at h
  have h3 : 0 < req.amount := by
    by_contra hle
    simp [validateTransferRequest, not_lt.mp hle] at h
  have h4 : req.fromAccountId ≠ req.toAccountId := by
    intro he; simp [validateTransferRequest, he, h1] at h; exact h.1 h.2.2
  exact ⟨h1, h2, h3, h4⟩

/-- Under the internal-classification hypotheses, transferMoney reduces to the
internal-transfer tail, with the post-token gateway state passed through. -/
lemma transferMoney_internal_path {γ : Type} (G : Gateway γ) (customerID : String)
    (req : TransferRequest) (s : Store) (g g1 : γ) (cust : Customer)
    (fromAccount toAccount : Account) (token : String)
    (t1 t2 t3 : String) (now : Int)
    (hval : validateTransferRequest req = [])
    (hcust : s.customers customerID = some cust)
    (htok : G.getToken g = (Except.ok token, g1))
    (hfrom : s.accounts req.fromAccountId = some fromAccount)
    (hfromOwn : fromAccount.customerId = customerID)
    (hto : s.accounts req.toAccountId = some toAccount)
    (htoOwn : toAccount.customerId = customerID) :
    transferMoney G customerID req s g t1 t2 t3 now =
      ((internalTransfer customerID req fromAccount toAccount s t1 t2 t3 now).1,
       (internalTransfer customerID req fromAccount toAccount s t1 t2 t3 now).2, g1) := by
  unfold transferMoney GetCustomerByID GetAccountByID
  rw [hval, hcust, htok, hfrom, hto]
  simp [hfromOwn, htoOwn]

/-- Under the external-classification hypotheses (no local destination, partner
getBalance succeeds), transferMoney reduces to the external-transfer tail. -/
lemma transferMoney_external_path {γ : Type} (G : Gateway γ) {customerID : String}
    {req : TransferRequest} {s : Store} {g g1 g2 : γ} {cust : Customer}
    {fromAccount : Account} {token : String} {bal : ℚ}
    (t1 t2 t3 : String) (now : Int)
    (hval : validateTransferRequest req = [])
    (hcust : s.customers customerID = some cust)
    (htok : G.getToken g = (Except.ok token, g1))
    (hfrom : s.accounts req.fromAccountId = some fromAccount)
    (hfromOwn : fromAccount.customerId = customerID)
    (hto : s.accounts req.toAccountId = none)
    (hbal : G.getBalance g1 req.toAccountId token = (Except.ok bal, g2)) :
    transferMoney G customerID req s g t1 t2 t3 now =
      externalTransfer G customerID req fromAccount token s g2 now := by
  unfold transferMoney GetCustomerByID GetAccountByID
  rw [hval, hcust, htok, hfrom, hto]
  simp [hfromOwn, hbal]

/-- A rejected internal transfer (insufficient funds) leaves the store as is. -/
lemma internalTransfer_insufficient {customerID : String} {req : TransferRequest}
    {fromAccount toAccount : Account} {s : Store} {t1 t2 t3 : String} {now : Int}
    (h : fromAccount.balance < req.amount + transferFee fromAccount req.amount) :
    internalTransfer customerID req fromAccount toAccount s t1 t2 t3 now =
      (Except.error TransferError.insufficientFunds, s) := by
  simp only [internalTransfer]
  rw [if_pos h]

/-- Full characterisation of a committed internal transfer: result, the two
balance updates, the frame on every other key, and the transfer record. -/
lemma internalTransfer_commit (customerID : String) (req : TransferRequest)
    (fromAccount toAccount : Account) (s : Store) (t1 t2 t3 : String) (now : Int)
    (hins : ¬ fromAccount.balance < req.amount + transferFee fromAccount req.amount)
    (hne : fromAccount.id ≠ toAccount.id) :
    (internalTransfer customerID req fromAccount toAccount s t1 t2 t3 now).1 = Except.ok t1 ∧
    (internalTransfer customerID req fromAccount toAccount s t1 t2 t3 now).2.accounts fromAccount.id =
      some { fromAccount with
        balance := fromAccount.balance - (req.amount + transferFee fromAccount req.amount) } ∧
    (internalTransfer customerID req fromAccount toAccount s t1 t2 t3 now).2.accounts toAccount.id =
      some { toAccount with
        balance := toAccount.balance + (req.amount + transferInterest toAccount req.amount) } ∧
    (∀ k, k ≠ fromAccount.id → k ≠ toAccount.id →
      (internalTransfer customerID req fromAccount toAccount s t1 t2 t3 now).2.accounts k =
        s.accounts k) ∧
    (∀ k, (internalTransfer customerID req fromAccount toAccount s t1 t2 t3 now).2.customers k =
      s.customers k) ∧
    (∀ k, k ≠ t1 → k ≠ t2 → k ≠ t3 →
      (internalTransfer customerID req fromAccount toAccount s t1 t2 t3 now).2.transactions k =
        s.transactions k) ∧
    (t1 ≠ t2 → t1 ≠ t3 →
      (internalTransfer customerID req fromAccount toAccount s t1 t2 t3 now).2.transactions t1 =
        some { id := t1, accountId := fromAccount.id, customerId := customerID,
               kind := "transfer", amount := req.amount, fromAccountId := fromAccount.id,
               toAccountId := toAccount.id, createdAt := now }) ∧
    (t2 ≠ t3 → 0 < transferFee fromAccount req.amount →
      (internalTransfer customerID req fromAccount toAccount s t1 t2 t3 now).2.transactions t2 =
        some { id := t2, accountId := fromAccount.id, customerId := customerID,
               kind := "fee", amount := transferFee fromAccount req.amount,
               fromAccountId := "", toAccountId := "", createdAt := now }) ∧
    (0 < transferInterest toAccount req.amount →
      (internalTransfer customerID req fromAccount toAccount s t1 t2 t3 now).2.transactions t3 =
        some { id := t3, accountId := toAccount.id, customerId := customerID,
               kind := "interest", amount := transferInterest toAccount req.amount,
               fromAccountId := "", toAccountId := "", createdAt := now }) := by
  simp only [internalTransfer, if_neg hins]
  refine ⟨?_, ?_, ?_, ?_, ?_, ?_, ?_, ?_, ?_⟩ <;>
    (intros
     (try split) <;> (try split) <;>
       simp [AddTransaction, UpdateAccount, hne, Ne.symm hne, *])

/-- A concrete one-customer store: a current account with balance 1000 and a
savings account with balance 500, both owned by customer cust-1. -/
def demoStore : Store :=
  { customers := fun k =>
      if k = "cust-1" then some { id := "cust-1", name := "Jane Doe", email := "jane@example.com" }
      else none
    accounts := fun k =>
      if k = "acc-cur" then
        some { id := "acc-cur", customerId := "cust-1", kind := "current",
               balance := 1000, createdAt := 0 }
      else if k = "acc-sav" then
        some { id := "acc-sav", customerId := "cust-1", kind := "savings",
               balance := 500, createdAt := 0 }
      else none
    transactions := fun _ => none }

/-- A nonempty validation-error list makes transferMoney report it unchanged. -/
lemma transferMoney_invalid {γ : Type} (G : Gateway γ) {customerID : String}
    {req : TransferRequest} {s : Store} {g : γ} (t1 t2 t3 : String) (now : Int)
    (h : validateTransferRequest req ≠ []) :
    transferMoney G customerID req s g t1 t2 t3 now =
      (Except.error (TransferError.invalidInput (validateTransferRequest req)), s, g) := by
  unfold transferMoney
  rw [if_pos h]

/-- An unknown customer makes transferMoney fail with customerNotFound. -/
lemma transferMoney_no_customer {γ : Type} (G : Gateway γ) {customerID : String}
    {req : TransferRequest} {s : Store} {g : γ} (t1 t2 t3 : String) (now : Int)
    (hval : validateTransferRequest req = [])
    (hcust : s.customers customerID = none) :
    transferMoney G customerID req s g t1 t2 t3 now =
      (Except.error TransferError.customerNotFound, s, g) := by
  unfold transferMoney GetCustomerByID
  rw [hval, hcust]
  simp

/-- A failed token acquisition makes transferMoney fail with authFailed. -/
lemma transferMoney_auth_failed {γ : Type} (G : Gateway γ) {customerID : String}
    {req : TransferRequest} {s : Store} {g g1 : γ} {cust : Customer} {e : String}
    (t1 t2 t3 : String) (now : Int)
    (hval : validateTransferRequest req = [])
    (hcust : s.customers customerID = some cust)
    (htok : G.getToken g = (Except.error e, g1)) :
    transferMoney G customerID req s g t1 t2 t3 now =
      (Except.error TransferError.authFailed, s, g1) := by
  unfold transferMoney GetCustomerByID
  rw [hval, hcust, htok]
  simp

/-- A missing source account makes transferMoney fail with sourceNotFound. -/
lemma transferMoney_source_not_found {γ : Type} (G : Gateway γ) {customerID : String}
    {req : TransferRequest} {s : Store} {g g1 : γ} {cust : Customer} {token : String}
    (t1 t2 t3 : String) (now : Int)
    (hval : validateTransferRequest req = [])
    (hcust : s.customers customerID = some cust)
    (htok : G.getToken g = (Except.ok token, g1))
    (hfrom : s.accounts req.fromAccountId = none) :
    transferMoney G customerID req s g t1 t2 t3 now =
      (Except.error (TransferError.sourceNotFound req.fromAccountId), s, g1) := by
  unfold transferMoney GetCustomerByID GetAccountByID
  rw [hval, hcust, htok, hfrom]
  simp

/-- A source account owned by another customer makes transferMoney fail with
sourceNotOwned. -/
lemma transferMoney_source_not_owned {γ : Type} (G : Gateway γ) {customerID : String}
    {req : TransferRequest} {s : Store} {g g1 : γ} {cust : Customer} {token : String}
    {fromAccount : Account}
    (t1 t2 t3 : String) (now : Int)
    (hval : validateTransferRequest req = [])
    (hcust : s.customers customerID = some cust)
    (htok : G.getToken g = (Except.ok token, g1))
    (hfrom : s.accounts req.fromAccountId = some fromAccount)
    (hown : fromAccount.customerId ≠ customerID) :
    transferMoney G customerID req s g t1 t2 t3 now =
      (Except.error TransferError.sourceNotOwned, s, g1) := by
  unfold transferMoney GetCustomerByID GetAccountByID
  rw [hval, hcust, htok, hfrom]
  simp [hown]

/-- A local destination owned by another customer makes transferMoney fail
with destNotOwned. -/
lemma transferMoney_dest_not_owned {γ : Type} (G : Gateway γ) {customerID : String}
    {req : TransferRequest} {s : Store} {g g1 : γ} {cust : Customer} {token : String}
    {fromAccount toAccount : Account}
    (t1 t2 t3 : String) (now : Int)
    (hval : validateTransferRequest req = [])
    (hcust : s.customers customerID = some cust)
    (htok : G.getToken g = (Except.ok token, g1))
    (hfrom : s.accounts req.fromAccountId = some fromAccount)
    (hfromOwn : fromAccount.customerId = customerID)
    (hto : s.accounts req.toAccountId = some toAccount)
    (htoOwn : toAccount.customerId ≠ customerID) :
    transferMoney G customerID req s g t1 t2 t3 now =
      (Except.error TransferError.destNotOwned, s, g1) := by
  unfold transferMoney GetCustomerByID GetAccountByID
  rw [hval, hcust, htok, hfrom, hto]
  simp [hfromOwn, htoOwn]

/-- A destination found neither locally nor at the partner makes transferMoney
fail with destinationNotFound. -/
lemma transferMoney_dest_not_found {γ : Type} (G : Gateway γ) {customerID : String}
    {req : TransferRequest} {s : Store} {g g1 g2 : γ} {cust : Customer} {token : String}
    {fromAccount : Account} {e : String}
    (t1 t2 t3 : String) (now : Int)
    (hval : validateTransferRequest req = [])
    (hcust : s.customers customerID = some cust)
    (htok : G.getToken g = (Except.ok token, g1))
    (hfrom : s.accounts req.fromAccountId = some fromAccount)
    (hfromOwn : fromAccount.customerId = customerID)
    (hto : s.accounts req.toAccountId = none)
    (hbal : G.getBalance g1 req.toAccountId token = (Except.error e, g2)) :
    transferMoney G customerID req s g t1 t2 t3 now =
      (Except.error (TransferError.destinationNotFound req.toAccountId), s, g2) := by
  unfold transferMoney GetCustomerByID GetAccountByID
  rw [hval, hcust, htok, hfrom, hto]
  simp [hfromOwn, hbal]

/-! ### Claim theorems -/

/-- C1: an accepted internal transfer (both accounts local, destination owned
by the same customer, source balance at least amount + fee) commits source
balance decreased by exactly amount + fee and destination balance increased by
exactly amount + interest, with fee = amount * 0.0005 for a current source and
0 otherwise, interest = amount * 0.005 for a savings destination and 0
otherwise; with source balance below amount + fee the transfer is rejected
with insufficient funds and the store is unchanged. -/
theorem internal_transfer_fee_interest_commit {γ : Type} (G : Gateway γ)
    (customerID : String) (req : TransferRequest) (s : Store) (g g1 : γ)
    (cust : Customer) (fromAccount toAccount : Account) (token : String)
    (t1 t2 t3 : String) (now : Int)
    (hval : validateTransferRequest req = [])
    (hcust : s.customers customerID = some cust)
    (htok : G.getToken g = (Except.ok token, g1))
    (hfrom : s.accounts req.fromAccountId = some fromAccount)
    (hfromId : fromAccount.id = req.fromAccountId)
    (hfromOwn : fromAccount.customerId = customerID)
    (hto : s.accounts req.toAccountId = some toAccount)
    (htoId : toAccount.id = req.toAccountId)
    (htoOwn : toAccount.customerId = customerID) :
    (req.amount + transferFee fromAccount req.amount ≤ fromAccount.balance →
      ∃ s2, transferMoney G customerID req s g t1 t2 t3 now = (Except.ok t1, s2, g1) ∧
        s2.accounts req.fromAccountId = some { fromAccount with
          balance := fromAccount.balance - (req.amount + transferFee fromAccount req.amount) } ∧
        s2.accounts req.toAccountId = some { toAccount with
          balance := toAccount.balance + (req.amount + transferInterest toAccount req.amount) }) ∧
    (fromAccount.balance < req.amount + transferFee fromAccount req.amount →
      transferMoney G customerID req s g t1 t2 t3 now =
        (Except.error TransferError.insufficientFunds, s, g1)) := by
  have hpath := transferMoney_internal_path G customerID req s g g1 cust fromAccount toAccount
    token t1 t2 t3 now hval hcust htok hfrom hfromOwn hto htoOwn
  have hne : fromAccount.id ≠ toAccount.id := by
    rw [hfromId, htoId]; exact (validateTransferRequest_eq_nil hval).2.2.2
  constructor
  · intro hsuff
    have hins : ¬ fromAccount.balance < req.amount + transferFee fromAccount req.amount :=
      not_lt.mpr hsuff
    obtain ⟨hfst, hfromL, htoL, -⟩ := internalTransfer_commit
      customerID req fromAccount toAccount s t1 t2 t3 now hins hne
    refine ⟨(internalTransfer customerID req fromAccount toAccount s t1 t2 t3 now).2, ?_, ?_, ?_⟩
    · rw [hpath, hfst]
    · rw [← hfromId]; exact hfromL
    · rw [← htoId]; exact htoL
  · intro hlt
    rw [hpath, internalTransfer_insufficient hlt]

/-- C1 witness: transferring 200 from the current account (balance 1000) to
the savings account of the same customer commits 799.9 and 701. -/
theorem internal_transfer_fee_interest_commit_witness :
    ∃ s2, transferMoney (constGateway (Except.ok "tok") (Except.error "e") (Except.error "e"))
        "cust-1" { fromAccountId := "acc-cur", toAccountId := "acc-sav", amount := 200 }
        demoStore () "tx-1" "tx-2" "tx-3" 0 = (Except.ok "tx-1", s2, ()) ∧
      s2.accounts "acc-cur" =
        some { id := "acc-cur", customerId := "cust-1", kind := "current",
               balance := 1000 - (200 + 200 * 0.0005), createdAt := 0 } ∧
      s2.accounts "acc-sav" =
        some { id := "acc-sav", customerId := "cust-1", kind := "savings",
               balance := 500 + (200 + 200 * 0.005), createdAt := 0 } := by
  have h := (internal_transfer_fee_interest_commit
    (constGateway (Except.ok "tok") (Except.error "e") (Except.error "e"))
    "cust-1" { fromAccountId := "acc-cur", toAccountId := "acc-sav", amount := 200 }
    demoStore () ()
    { id := "cust-1", name := "Jane Doe", email := "jane@example.com" }
    { id := "acc-cur", customerId := "cust-1", kind := "current", balance := 1000, createdAt := 0 }
    { id := "acc-sav", customerId := "cust-1", kind := "savings", balance := 500, createdAt := 0 }
    "tok" "tx-1" "tx-2" "tx-3" 0 rfl rfl rfl rfl rfl rfl rfl rfl rfl).1
    (by norm_num [transferFee])
  simpa [transferFee, transferInterest] using h

/-- C2: on the external path (destination unknown locally, partner getBalance
succeeds, funds sufficient), a gateway error from initiateTransfer is returned
as the transfer error and the local store is exactly unchanged: no balance
mutation and no transaction record. -/
theorem external_transfer_gateway_error_no_mutation {γ : Type} (G : Gateway γ)
    (customerID : String) (req : TransferRequest) (s : Store) (g g1 g2 g3 : γ)
    (cust : Customer) (fromAccount : Account) (token : String) (bal : ℚ) (e : String)
    (t1 t2 t3 : String) (now : Int)
    (hval : validateTransferRequest req = [])
    (hcust : s.customers customerID = some cust)
    (htok : G.getToken g = (Except.ok token, g1))
    (hfrom : s.accounts req.fromAccountId = some fromAccount)
    (hfromOwn : fromAccount.customerId = customerID)
    (hto : s.accounts req.toAccountId = none)
    (hbal : G.getBalance g1 req.toAccountId token = (Except.ok bal, g2))
    (hfunds : ¬ fromAccount.balance < req.amount)
    (hinit : G.initiateTransfer g2 fromAccount.id req.toAccountId token req.amount =
      (Except.error e, g3)) :
    transferMoney G customerID req s g t1 t2 t3 now =
      (Except.error (TransferError.gatewayError e), s, g3) := by
  rw [transferMoney_external_path G t1 t2 t3 now hval hcust htok hfrom hfromOwn hto hbal]
  unfold externalTransfer
  rw [if_neg hfunds, hinit]

/-- C2 witness: a partner transfer whose gateway call fails leaves demoStore
bit-for-bit unchanged and surfaces the gateway error. -/
theorem external_transfer_gateway_error_no_mutation_witness :
    transferMoney (constGateway (Except.ok "tok") (Except.ok 50) (Except.error "partner down"))
      "cust-1" { fromAccountId := "acc-cur", toAccountId := "bankz-acc-999", amount := 200 }
      demoStore () "tx-1" "tx-2" "tx-3" 0 =
      (Except.error (TransferError.gatewayError "partner down"), demoStore, ()) :=
  external_transfer_gateway_error_no_mutation
    (constGateway (Except.ok "tok") (Except.ok 50) (Except.error "partner down"))
    "cust-1" { fromAccountId := "acc-cur", toAccountId := "bankz-acc-999", amount := 200 }
    demoStore () () () ()
    { id := "cust-1", name := "Jane Doe", email := "jane@example.com" }
    { id := "acc-cur", customerId := "cust-1", kind := "current", balance := 1000, createdAt := 0 }
    "tok" 50 "partner down" "tx-1" "tx-2" "tx-3" 0
    rfl rfl rfl rfl rfl rfl rfl (by norm_num) rfl

/-- A committed internal transfer leaves the stored source account with
non-negative balance (the sufficiency check guarantees the debit fits). -/
lemma internalTransfer_ok_source_nonneg {customerID : String} {req : TransferRequest}
    {fromAccount toAccount : Account} {s : Store} {t1 t2 t3 : String} {now : Int}
    {tid : String} {s5 : Store} {a2 : Account}
    (hne : fromAccount.id ≠ toAccount.id)
    (h : internalTransfer customerID req fromAccount toAccount s t1 t2 t3 now =
      (Except.ok tid, s5))
    (hlook : s5.accounts fromAccount.id = some a2) :
    0 ≤ a2.balance := by
  by_cases hins : fromAccount.balance < req.amount + transferFee fromAccount req.amount
  · rw [internalTransfer_insufficient hins] at h
    simp at h
  · obtain ⟨-, hfromL, -⟩ := internalTransfer_commit
      customerID req fromAccount toAccount s t1 t2 t3 now hins hne
    rw [h] at hfromL
    simp only [] at hfromL
    rw [hfromL] at hlook
    have ha2 : a2 = { fromAccount with
        balance := fromAccount.balance - (req.amount + transferFee fromAccount req.amount) } :=
      (Option.some.inj hlook).symm
    rw [ha2]
    have := not_lt.mp hins
    simp only []
    linarith

/-- A committed external transfer leaves the stored source account with
non-negative balance. -/
lemma externalTransfer_ok_source_nonneg {γ : Type} {G : Gateway γ} {customerID : String}
    {req : TransferRequest} {fromAccount : Account} {token : String} {s : Store}
    {g : γ} {now : Int} {tid : String} {s2 : Store} {g2 : γ} {a2 : Account}
    (h : externalTransfer G customerID req fromAccount token s g now = (Except.ok tid, s2, g2))
    (hlook : s2.accounts fromAccount.id = some a2) :
    0 ≤ a2.balance := by
  by_cases hfunds : fromAccount.balance < req.amount
  · unfold externalTransfer at h
    rw [if_pos hfunds] at h
    simp at h
  · unfold externalTransfer at h
    rw [if_neg hfunds] at h
    rcases hinit : G.initiateTransfer g fromAccount.id req.toAccountId token req.amount
      with ⟨res, g3⟩
    rw [hinit] at h
    cases res with
    | error e => simp at h
    | ok txid =>
        simp only [Prod.mk.injEq] at h
        obtain ⟨-, hs2, -⟩ := h
        rw [← hs2] at hlook
        have hlook2 : (UpdateAccount s
            { fromAccount with balance := fromAccount.balance - req.amount }).accounts
            fromAccount.id = some a2 := hlook
        rw [show (UpdateAccount s
            { fromAccount with balance := fromAccount.balance - req.amount }).accounts
            fromAccount.id = some { fromAccount with
              balance := fromAccount.balance - req.amount } from by simp [UpdateAccount]]
          at hlook2
        have ha2 : a2 = { fromAccount with balance := fromAccount.balance - req.amount } :=
          (Option.some.inj hlook2).symm
        rw [ha2]
        have := not_lt.mp hfunds
        show 0 ≤ fromAccount.balance - req.amount
        linarith

/-- C3: every committed transfer, internal or external, leaves the source
account balance non-negative, because the sufficiency check (amount + fee
internally, amount externally) bounds the debit by the prior balance. -/
theorem committed_transfer_source_balance_nonneg {γ : Type} (G : Gateway γ)
    (customerID : String) (req : TransferRequest) (s : Store) (g g9 : γ)
    (t1 t2 t3 : String) (now : Int) (tid : String) (s2 : Store) (a2 : Account)
    (hwf : ∀ k a, s.accounts k = some a → a.id = k)
    (hrun : transferMoney G customerID req s g t1 t2 t3 now = (Except.ok tid, s2, g9))
    (hlook : s2.accounts req.fromAccountId = some a2) :
    0 ≤ a2.balance := by
  by_cases hval : validateTransferRequest req = []
  case neg =>
    rw [transferMoney_invalid G t1 t2 t3 now hval] at hrun
    simp at hrun
  case pos =>
  rcases hcuste : s.customers customerID with _ | cust
  · rw [transferMoney_no_customer G t1 t2 t3 now hval hcuste] at hrun
    simp at hrun
  · rcases htoke : G.getToken g with ⟨res, g1⟩
    cases res with
    | error e =>
        rw [transferMoney_auth_failed G t1 t2 t3 now hval hcuste htoke] at hrun
        simp at hrun
    | ok token =>
      rcases hfrome : s.accounts req.fromAccountId with _ | fromAccount
      · rw [transferMoney_source_not_found G t1 t2 t3 now hval hcuste htoke hfrome] at hrun
        simp at hrun
      · by_cases hown : fromAccount.customerId = customerID
        case neg =>
          rw [transferMoney_source_not_owned G t1 t2 t3 now hval hcuste htoke hfrome hown] at hrun
          simp at hrun
        case pos =>
        have hfromId : fromAccount.id = req.fromAccountId := hwf _ _ hfrome
        rcases htoe : s.accounts req.toAccountId with _ | toAccount
        · rcases hbale : G.getBalance g1 req.toAccountId token with ⟨bres, g2⟩
          cases bres with
          | error e =>
              rw [transferMoney_dest_not_found G t1 t2 t3 now hval hcuste htoke hfrome hown
                htoe hbale] at hrun
              simp at hrun
          | ok bal =>
              rw [transferMoney_external_path G t1 t2 t3 now hval hcuste htoke hfrome hown
                htoe hbale] at hrun
              refine externalTransfer_ok_source_nonneg hrun ?_
              rw [hfromId]
              exact hlook
        · by_cases htoOwn : toAccount.customerId = customerID
          case neg =>
            rw [transferMoney_dest_not_owned G t1 t2 t3 now hval hcuste htoke hfrome hown
              htoe htoOwn] at hrun
            simp at hrun
          case pos =>
            have htoId : toAccount.id = req.toAccountId := hwf _ _ htoe
            have hne : fromAccount.id ≠ toAccount.id := by
              rw [hfromId, htoId]
              exact (validateTransferRequest_eq_nil hval).2.2.2
            rw [transferMoney_internal_path G customerID req s g g1 cust fromAccount toAccount
              token t1 t2 t3 now hval hcuste htoke hfrome hown htoe htoOwn] at hrun
            simp only [Prod.mk.injEq] at hrun
            obtain ⟨h1, h2, -⟩ := hrun
            have hpair : internalTransfer customerID req fromAccount toAccount s t1 t2 t3 now =
                (Except.ok tid, s2) := by
              rw [Prod.ext_iff]
              exact ⟨h1, h2⟩
            refine internalTransfer_ok_source_nonneg hne hpair ?_
            rw [hfromId]
            exact hlook

/-- demoStore stores accounts under their own IDs. -/
lemma demoStore_wf : ∀ k a, demoStore.accounts k = some a → a.id = k := by
  intro k a h
  by_cases h1 : k = "acc-cur"
  · subst h1
    simp [demoStore] at h
    rw [← h]
  · by_cases h2 : k = "acc-sav"
    · subst h2
      simp [demoStore] at h
      rw [← h]
    · simp [demoStore, h1, h2] at h

/-- C3 witness: the committed demo transfer leaves the current account at a
non-negative balance. -/
theorem committed_transfer_source_balance_nonneg_witness :
    ∃ (s2 : Store) (a2 : Account),
      transferMoney (constGateway (Except.ok "tok") (Except.error "e") (Except.error "e"))
        "cust-1" { fromAccountId := "acc-cur", toAccountId := "acc-sav", amount := 200 }
        demoStore () "tx-1" "tx-2" "tx-3" 0 = (Except.ok "tx-1", s2, ()) ∧
      s2.accounts "acc-cur" = some a2 ∧ 0 ≤ a2.balance := by
  have hpath := transferMoney_internal_path
    (constGateway (Except.ok "tok") (Except.error "e") (Except.error "e"))
    "cust-1" { fromAccountId := "acc-cur", toAccountId := "acc-sav", amount := 200 }
    demoStore () ()
    { id := "cust-1", name := "Jane Doe", email := "jane@example.com" }
    { id := "acc-cur", customerId := "cust-1", kind := "current", balance := 1000, createdAt := 0 }
    { id := "acc-sav", customerId := "cust-1", kind := "savings", balance := 500, createdAt := 0 }
    "tok" "tx-1" "tx-2" "tx-3" 0 rfl rfl rfl rfl rfl rfl rfl
  have hins : ¬ (1000 : ℚ) <
      (200 : ℚ) + transferFee { id := "acc-cur", customerId := "cust-1", kind := "current", balance := 1000, createdAt := 0 } 200 := by
    norm_num [transferFee]
  obtain ⟨hfst, hfromL, -⟩ := internalTransfer_commit
    "cust-1" { fromAccountId := "acc-cur", toAccountId := "acc-sav", amount := 200 }
    { id := "acc-cur", customerId := "cust-1", kind := "current", balance := 1000, createdAt := 0 }
    { id := "acc-sav", customerId := "cust-1", kind := "savings", balance := 500, createdAt := 0 }
    demoStore "tx-1" "tx-2" "tx-3" 0
    hins (by decide)
  have hrun : transferMoney (constGateway (Except.ok "tok") (Except.error "e") (Except.error "e"))
      "cust-1" { fromAccountId := "acc-cur", toAccountId := "acc-sav", amount := 200 }
      demoStore () "tx-1" "tx-2" "tx-3" 0 =
      (Except.ok "tx-1",
       (internalTransfer "cust-1"
         { fromAccountId := "acc-cur", toAccountId := "acc-sav", amount := 200 }
         { id := "acc-cur", customerId := "cust-1", kind := "current", balance := 1000, createdAt := 0 }
         { id := "acc-sav", customerId := "cust-1", kind := "savings", balance := 500, createdAt := 0 }
         demoStore "tx-1" "tx-2" "tx-3" 0).2, ()) := by
    rw [hpath, hfst]
  refine ⟨_, _, hrun, hfromL, ?_⟩
  exact committed_transfer_source_balance_nonneg _ _ _ _ _ _ _ _ _ _ _ _ _
    demoStore_wf hrun hfromL

/-- C4: destination resolution order: a local destination owned by another
customer is rejected; one owned by the same customer routes to the internal
tail; an unknown local destination with a successful partner getBalance routes
to the external tail; and with a failing getBalance the transfer fails with a
destination-not-found error distinct from insufficient-funds and auth
failure, leaving the store unchanged. -/
theorem destination_resolution {γ : Type} (G : Gateway γ)
    (customerID : String) (req : TransferRequest) (s : Store) (g g1 : γ)
    (cust : Customer) (fromAccount : Account) (token : String)
    (t1 t2 t3 : String) (now : Int)
    (hval : validateTransferRequest req = [])
    (hcust : s.customers customerID = some cust)
    (htok : G.getToken g = (Except.ok token, g1))
    (hfrom : s.accounts req.fromAccountId = some fromAccount)
    (hfromOwn : fromAccount.customerId = customerID) :
    (∀ toAccount, s.accounts req.toAccountId = some toAccount →
      toAccount.customerId ≠ customerID →
      transferMoney G customerID req s g t1 t2 t3 now =
        (Except.error TransferError.destNotOwned, s, g1)) ∧
    (∀ toAccount, s.accounts req.toAccountId = some toAccount →
      toAccount.customerId = customerID →
      transferMoney G customerID req s g t1 t2 t3 now =
        ((internalTransfer customerID req fromAccount toAccount s t1 t2 t3 now).1,
         (internalTransfer customerID req fromAccount toAccount s t1 t2 t3 now).2, g1)) ∧
    (∀ bal g2, s.accounts req.toAccountId = none →
      G.getBalance g1 req.toAccountId token = (Except.ok bal, g2) →
      transferMoney G customerID req s g t1 t2 t3 now =
        externalTransfer G customerID req fromAccount token s g2 now) ∧
    (∀ e g2, s.accounts req.toAccountId = none →
      G.getBalance g1 req.toAccountId token = (Except.error e, g2) →
      transferMoney G customerID req s g t1 t2 t3 now =
        (Except.error (TransferError.destinationNotFound req.toAccountId), s, g2)) ∧
    TransferError.destinationNotFound req.toAccountId ≠ TransferError.insufficientFunds ∧
    TransferError.destinationNotFound req.toAccountId ≠ TransferError.authFailed := by
  refine ⟨?_, ?_, ?_, ?_, by simp, by simp⟩
  · intro toAccount hto htoOwn
    exact transferMoney_dest_not_owned G t1 t2 t3 now hval hcust htok hfrom hfromOwn hto htoOwn
  · intro toAccount hto htoOwn
    exact transferMoney_internal_path G customerID req s g g1 cust fromAccount toAccount token
      t1 t2 t3 now hval hcust htok hfrom hfromOwn hto htoOwn
  · intro bal g2 hto hbal
    exact transferMoney_external_path G t1 t2 t3 now hval hcust htok hfrom hfromOwn hto hbal
  · intro e g2 hto hbal
    exact transferMoney_dest_not_found G t1 t2 t3 now hval hcust htok hfrom hfromOwn hto hbal

/-- C4 witness: a destination unknown both locally and at the partner yields
the distinguishable destination-not-found error and leaves the store as is. -/
theorem destination_resolution_witness :
    transferMoney (constGateway (Except.ok "tok") (Except.error "no such account") (Except.error "e"))
      "cust-1" { fromAccountId := "acc-cur", toAccountId := "acc-unknown", amount := 200 }
      demoStore () "tx-1" "tx-2" "tx-3" 0 =
      (Except.error (TransferError.destinationNotFound "acc-unknown"), demoStore, ()) ∧
    TransferError.destinationNotFound "acc-unknown" ≠ TransferError.insufficientFunds ∧
    TransferError.destinationNotFound "acc-unknown" ≠ TransferError.authFailed := by
  have h := destination_resolution
    (constGateway (Except.ok "tok") (Except.error "no such account") (Except.error "e"))
    "cust-1" { fromAccountId := "acc-cur", toAccountId := "acc-unknown", amount := 200 }
    demoStore () ()
    { id := "cust-1", name := "Jane Doe", email := "jane@example.com" }
    { id := "acc-cur", customerId := "cust-1", kind := "current", balance := 1000, createdAt := 0 }
    "tok" "tx-1" "tx-2" "tx-3" 0 rfl rfl rfl rfl rfl
  exact ⟨h.2.2.2.1 "no such account" () rfl rfl, h.2.2.2.2.1, h.2.2.2.2.2⟩

/-- Operations that never store a transaction under `id` leave the
transactions map at `id` unchanged. -/
lemma applyOps_transactions_frame (ops : List StoreOp) (s : Store) (id : String)
    (h : ∀ op ∈ ops, ¬ opAddsTxId op id) :
    (applyOps s ops).transactions id = s.transactions id := by
  induction ops generalizing s with
  | nil => rfl
  | cons op rest ih =>
    have hop : ¬ opAddsTxId op id := h op (List.mem_cons_self op rest)
    have hrest : ∀ op2 ∈ rest, ¬ opAddsTxId op2 id :=
      fun op2 hm => h op2 (List.mem_cons_of_mem _ hm)
    have step : applyOps s (op :: rest) = applyOps (applyOp s op) rest := rfl
    rw [step, ih (applyOp s op) hrest]
    cases op with
    | addCustomer c => rfl
    | addAccount a => rfl
    | updateAccount a => rfl
    | addTransaction t =>
        have hne : t.id ≠ id := by simpa [opAddsTxId] using hop
        show (AddTransaction s t).transactions id = s.transactions id
        simp only [AddTransaction]
        exact if_neg fun he => hne he.symm

/-- C5: transaction records are append-only and immutable: provided no later
operation reuses a stored transaction ID (as the freshly generated uuid and
gateway IDs of every creation path guarantee), a stored record survives every
sequence of store operations unchanged, and a record added mid-sequence is
still retrievable unchanged at the end. -/
theorem transaction_records_append_only (s : Store) (ops : List StoreOp) :
    (∀ id t, s.transactions id = some t →
      (∀ op ∈ ops, ¬ opAddsTxId op id) →
      (applyOps s ops).transactions id = some t) ∧
    (∀ pre t post, ops = pre ++ StoreOp.addTransaction t :: post →
      (∀ op ∈ post, ¬ opAddsTxId op t.id) →
      (applyOps s ops).transactions t.id = some t) := by
  constructor
  · intro id t hst h
    rw [applyOps_transactions_frame ops s id h, hst]
  · intro pre t post hops h
    subst hops
    have hsplit : applyOps s (pre ++ StoreOp.addTransaction t :: post) =
        applyOps (applyOp (applyOps s pre) (StoreOp.addTransaction t)) post := by
      simp [applyOps, List.foldl_append]
    rw [hsplit, applyOps_transactions_frame post _ t.id h]
    simp [applyOp, AddTransaction]

/-- C5 witness: a bonus record stored under a fresh ID survives a later
account update and a later transaction under a different ID. -/
theorem transaction_records_append_only_witness :
    (applyOps emptyStore
      [StoreOp.addTransaction { id := "tx-a", accountId := "acc-1", customerId := "c1", kind := "bonus", amount := 500, fromAccountId := "", toAccountId := "", createdAt := 0 },
       StoreOp.updateAccount { id := "acc-1", customerId := "c1", kind := "savings", balance := 400, createdAt := 0 },
       StoreOp.addTransaction { id := "tx-b", accountId := "acc-1", customerId := "c1", kind := "transfer", amount := 100, fromAccountId := "acc-1", toAccountId := "acc-2", createdAt := 1 }]).transactions "tx-a" =
      some { id := "tx-a", accountId := "acc-1", customerId := "c1", kind := "bonus", amount := 500, fromAccountId := "", toAccountId := "", createdAt := 0 } := by
  refine (transaction_records_append_only emptyStore _).2 []
    { id := "tx-a", accountId := "acc-1", customerId := "c1", kind := "bonus", amount := 500, fromAccountId := "", toAccountId := "", createdAt := 0 }
    [StoreOp.updateAccount { id := "acc-1", customerId := "c1", kind := "savings", balance := 400, createdAt := 0 },
     StoreOp.addTransaction { id := "tx-b", accountId := "acc-1", customerId := "c1", kind := "transfer", amount := 100, fromAccountId := "acc-1", toAccountId := "acc-2", createdAt := 1 }] rfl ?_
  intro op hop
  fin_cases hop <;> simp [opAddsTxId]

/-- C6 counterexample: with amount = -1 and identical non-empty account IDs,
the reported error carries both input-check messages, not only the first
violated precondition (amount > 0). -/
theorem transfer_precondition_phases_counterexample :
    transferMoney (constGateway (Except.ok "tok") (Except.error "e") (Except.error "e"))
      "cust-1" { fromAccountId := "acc-1", toAccountId := "acc-1", amount := -1 }
      demoStore () "tx-1" "tx-2" "tx-3" 0 =
      (Except.error (TransferError.invalidInput
        ["Amount must be positive", "Cannot transfer to the same account"]), demoStore, ()) ∧
    TransferError.invalidInput
        ["Amount must be positive", "Cannot transfer to the same account"] ≠
      TransferError.invalidInput ["Amount must be positive"] :=
  ⟨rfl, by simp⟩

/-- C6 (amended): the four input checks (from empty, to empty, amount > 0,
from ≠ to) are evaluated together and every violated one is reported in one
list; only when all pass do the later phases run in order — customer exists,
token acquisition, source account exists, source account owned — each later
failing phase alone determining the error, with the store unchanged. -/
theorem transfer_precondition_phases {γ : Type} (G : Gateway γ)
    (customerID : String) (req : TransferRequest) (s : Store) (g : γ)
    (t1 t2 t3 : String) (now : Int) :
    (validateTransferRequest req ≠ [] →
      transferMoney G customerID req s g t1 t2 t3 now =
        (Except.error (TransferError.invalidInput (validateTransferRequest req)), s, g)) ∧
    (validateTransferRequest req = [] → s.customers customerID = none →
      transferMoney G customerID req s g t1 t2 t3 now =
        (Except.error TransferError.customerNotFound, s, g)) ∧
    (∀ cust e g1, validateTransferRequest req = [] →
      s.customers customerID = some cust →
      G.getToken g = (Except.error e, g1) →
      transferMoney G customerID req s g t1 t2 t3 now =
        (Except.error TransferError.authFailed, s, g1)) ∧
    (∀ cust token g1, validateTransferRequest req = [] →
      s.customers customerID = some cust →
      G.getToken g = (Except.ok token, g1) →
      s.accounts req.fromAccountId = none →
      transferMoney G customerID req s g t1 t2 t3 now =
        (Except.error (TransferError.sourceNotFound req.fromAccountId), s, g1)) ∧
    (∀ cust token g1 fromAccount, validateTransferRequest req = [] →
      s.customers customerID = some cust →
      G.getToken g = (Except.ok token, g1) →
      s.accounts req.fromAccountId = some fromAccount →
      fromAccount.customerId ≠ customerID →
      transferMoney G customerID req s g t1 t2 t3 now =
        (Except.error TransferError.sourceNotOwned, s, g1)) := by
  refine ⟨?_, ?_, ?_, ?_, ?_⟩
  · intro h
    exact transferMoney_invalid G t1 t2 t3 now h
  · intro hval hcust
    exact transferMoney_no_customer G t1 t2 t3 now hval hcust
  · intro cust e g1 hval hcust htok
    exact transferMoney_auth_failed G t1 t2 t3 now hval hcust htok
  · intro cust token g1 hval hcust htok hfrom
    exact transferMoney_source_not_found G t1 t2 t3 now hval hcust htok hfrom
  · intro cust token g1 fromAccount hval hcust htok hfrom hown
    exact transferMoney_source_not_owned G t1 t2 t3 now hval hcust htok hfrom hown

/-- C6 witness: with valid input fields but an unknown customer, the customer
phase alone reports, with the store untouched. -/
theorem transfer_precondition_phases_witness :
    transferMoney (constGateway (Except.ok "tok") (Except.error "e") (Except.error "e"))
      "cust-x" { fromAccountId := "acc-1", toAccountId := "acc-2", amount := 5 }
      demoStore () "tx-1" "tx-2" "tx-3" 0 =
      (Except.error TransferError.customerNotFound, demoStore, ()) :=
  (transfer_precondition_phases
    (constGateway (Except.ok "tok") (Except.error "e") (Except.error "e"))
    "cust-x" { fromAccountId := "acc-1", toAccountId := "acc-2", amount := 5 }
    demoStore () "tx-1" "tx-2" "tx-3" 0).2.1 rfl rfl

/-- C7: a successful createCustomer writes exactly four records — the
customer, a current account with balance 0, a savings account with balance
500, and one bonus transaction of 500 against the savings account — leaves
every other key unchanged, and returns the three generated IDs. -/
theorem create_customer_writes (name email : String)
    (customerID currentAccountID savingsAccountID bonusTransactionID : String)
    (now : Int) (s : Store)
    (hid : currentAccountID ≠ savingsAccountID) :
    (createCustomer name email customerID currentAccountID savingsAccountID
        bonusTransactionID now s).1 =
      { customerId := customerID, currentAccountId := currentAccountID,
        savingsAccountId := savingsAccountID } ∧
    (createCustomer name email customerID currentAccountID savingsAccountID
        bonusTransactionID now s).2.customers customerID =
      some { id := customerID, name := name, email := email } ∧
    (∀ k, k ≠ customerID →
      (createCustomer name email customerID currentAccountID savingsAccountID
        bonusTransactionID now s).2.customers k = s.customers k) ∧
    (createCustomer name email customerID currentAccountID savingsAccountID
        bonusTransactionID now s).2.accounts currentAccountID =
      some { id := currentAccountID, customerId := customerID, kind := "current", balance := 0, createdAt := now } ∧
    (createCustomer name email customerID currentAccountID savingsAccountID
        bonusTransactionID now s).2.accounts savingsAccountID =
      some { id := savingsAccountID, customerId := customerID, kind := "savings", balance := 500, createdAt := now } ∧
    (∀ k, k ≠ currentAccountID → k ≠ savingsAccountID →
      (createCustomer name email customerID currentAccountID savingsAccountID
        bonusTransactionID now s).2.accounts k = s.accounts k) ∧
    (createCustomer name email customerID currentAccountID savingsAccountID
        bonusTransactionID now s).2.transactions bonusTransactionID =
      some { id := bonusTransactionID, accountId := savingsAccountID, customerId := customerID, kind := "bonus", amount := 500, fromAccountId := "", toAccountId := "", createdAt := now } ∧
    (∀ k, k ≠ bonusTransactionID →
      (createCustomer name email customerID currentAccountID savingsAccountID
        bonusTransactionID now s).2.transactions k = s.transactions k) := by
  refine ⟨rfl, ?_, ?_, ?_, ?_, ?_, ?_, ?_⟩ <;>
    (intros
     simp_all [createCustomer, AddCustomer, AddAccount, AddTransaction, hid, Ne.symm hid])

/-- C7 witness: onboarding Jane Doe with distinct generated IDs yields the
four records and the ID triple. -/
theorem create_customer_writes_witness :
    (createCustomer "Jane Doe" "jane@example.com" "c-1" "a-cur" "a-sav" "t-bonus" 0 emptyStore).1 =
      { customerId := "c-1", currentAccountId := "a-cur", savingsAccountId := "a-sav" } ∧
    (createCustomer "Jane Doe" "jane@example.com" "c-1" "a-cur" "a-sav" "t-bonus" 0
        emptyStore).2.accounts "a-sav" =
      some { id := "a-sav", customerId := "c-1", kind := "savings", balance := 500, createdAt := 0 } ∧
    (createCustomer "Jane Doe" "jane@example.com" "c-1" "a-cur" "a-sav" "t-bonus" 0
        emptyStore).2.transactions "t-bonus" =
      some { id := "t-bonus", accountId := "a-sav", customerId := "c-1", kind := "bonus", amount := 500, fromAccountId := "", toAccountId := "", createdAt := 0 } := by
  have h := create_customer_writes "Jane Doe" "jane@example.com" "c-1" "a-cur" "a-sav"
    "t-bonus" 0 emptyStore (by decide)
  exact ⟨h.1, h.2.2.2.2.1, h.2.2.2.2.2.2.1⟩

/-- A successful mint caches exactly the returned token, expiring one hour
after the mint time. -/
lemma mintToken_ok_token {c : MockClient} {now : Int} {tok : String} {c2 : MockClient}
    (h : mintToken c now = (Except.ok tok, c2)) :
    c2.token = some { accessToken := tok, expiresAt := now + nsPerHour } := by
  unfold mintToken at h
  split at h
  · exact absurd (congrArg Prod.fst h) (by simp)
  · simp only [Prod.mk.injEq] at h
    obtain ⟨h1, h2⟩ := h
    have h3 : ("token-" ++ toString now) = tok := Except.ok.inj h1
    subst h3
    rw [← h2]

/-- A successful GetToken leaves the returned token cached. -/
lemma GetToken_ok_token {c : MockClient} {now : Int} {tok : String} {c2 : MockClient}
    (h : GetToken c now = (Except.ok tok, c2)) :
    ∃ e, c2.token = some { accessToken := tok, expiresAt := e } := by
  unfold GetToken at h
  cases hc : c.token with
  | none =>
      rw [hc] at h
      exact ⟨now + nsPerHour, mintToken_ok_token h⟩
  | some t =>
      rw [hc] at h
      have h4 : (if now < t.expiresAt then (Except.ok t.accessToken, c)
          else mintToken c now) = (Except.ok tok, c2) := h
      by_cases hlt : now < t.expiresAt
      · rw [if_pos hlt] at h4
        have h2 : c = c2 := congrArg Prod.snd h4
        have h3 : t.accessToken = tok := Except.ok.inj (congrArg Prod.fst h4)
        refine ⟨t.expiresAt, ?_⟩
        rw [← h2, hc, ← h3]
      · rw [if_neg hlt] at h4
        exact ⟨now + nsPerHour, mintToken_ok_token h4⟩

/-- C8: getToken is caching-idempotent: an unexpired cached token is returned
unchanged without minting; otherwise (with the fixed valid credentials) a
fresh token expiring exactly one hour after the mint time is cached and
returned; and any second call within the unexpired window of a token returned
by a first call returns the same token string. -/
theorem getToken_caching :
    (∀ (c : MockClient) (now : Int) (t : BankToken), c.token = some t → now < t.expiresAt →
      GetToken c now = (Except.ok t.accessToken, c)) ∧
    (∀ (c : MockClient) (now : Int), c.clientID = "mock-client-id" →
      c.clientSecret = "mock-client-secret" →
      (∀ t, c.token = some t → t.expiresAt ≤ now) →
      GetToken c now = (Except.ok ("token-" ++ toString now),
        { c with token := some { accessToken := "token-" ++ toString now, expiresAt := now + nsPerHour } })) ∧
    (∀ (c c2 : MockClient) (now1 now2 : Int) (tok : String) (tk : BankToken),
      GetToken c now1 = (Except.ok tok, c2) → c2.token = some tk → now2 < tk.expiresAt →
      GetToken c2 now2 = (Except.ok tok, c2)) := by
  have hcached : ∀ (c : MockClient) (now : Int) (t : BankToken), c.token = some t →
      now < t.expiresAt → GetToken c now = (Except.ok t.accessToken, c) := by
    intro c now t ht hlt
    unfold GetToken
    rw [ht]
    exact if_pos hlt
  refine ⟨hcached, ?_, ?_⟩
  · intro c now hid hsec hexp
    have hmint : mintToken c now = (Except.ok ("token-" ++ toString now),
        { c with token := some { accessToken := "token-" ++ toString now, expiresAt := now + nsPerHour } }) := by
      unfold mintToken
      rw [if_neg]
      simp [hid, hsec]
    unfold GetToken
    cases hc : c.token with
    | none => exact hmint
    | some t =>
        exact (if_neg (not_lt.mpr (hexp t hc))).trans hmint
  · intro c c2 now1 now2 tok tk h1 htk hlt
    obtain ⟨e, he⟩ := GetToken_ok_token h1
    have htk2 : tk = { accessToken := tok, expiresAt := e } := by
      rw [he] at htk
      exact (Option.some.inj htk).symm
    subst htk2
    exact hcached c2 now2 { accessToken := tok, expiresAt := e } he hlt

/-- C8 witness: a fresh client mints token-0 at time 0, and a second call at
time 10 (within the hour) returns the same token with the client unchanged. -/
theorem getToken_caching_witness :
    GetToken { accounts := fun _ => none, clientID := "mock-client-id", clientSecret := "mock-client-secret", token := none } 0 =
      (Except.ok "token-0", { accounts := fun _ => none, clientID := "mock-client-id", clientSecret := "mock-client-secret", token := some { accessToken := "token-0", expiresAt := 0 + nsPerHour } }) ∧
    GetToken { accounts := fun _ => none, clientID := "mock-client-id", clientSecret := "mock-client-secret", token := some { accessToken := "token-0", expiresAt := 0 + nsPerHour } } 10 =
      (Except.ok "token-0", { accounts := fun _ => none, clientID := "mock-client-id", clientSecret := "mock-client-secret", token := some { accessToken := "token-0", expiresAt := 0 + nsPerHour } }) := by
  constructor
  · exact getToken_caching.2.1
      { accounts := fun _ => none, clientID := "mock-client-id", clientSecret := "mock-client-secret", token := none }
      0 rfl rfl (by intro t ht; exact absurd ht (by simp))
  · exact getToken_caching.2.2
      { accounts := fun _ => none, clientID := "mock-client-id", clientSecret := "mock-client-secret", token := none }
      { accounts := fun _ => none, clientID := "mock-client-id", clientSecret := "mock-client-secret", token := some { accessToken := "token-0", expiresAt := 0 + nsPerHour } }
      0 10 "token-0" { accessToken := "token-0", expiresAt := 0 + nsPerHour }
      (getToken_caching.2.1
        { accounts := fun _ => none, clientID := "mock-client-id", clientSecret := "mock-client-secret", token := none }
        0 rfl rfl (by intro t ht; exact absurd ht (by simp)))
      rfl (by norm_num [nsPerHour])

/-- C9: transferring 200 from the current account (balance 1000) to the same
customer's savings account computes fee exactly 0.1 and interest exactly 1,
commits current = 799.9 and savings = 500 + 201, and records exactly the
three transactions transfer, fee and interest. -/
theorem scenario_transfer_200_current_to_savings :
    ∃ (s2 : Store) (c2 : MockClient),
      transferMoney (mockGateway 0) "cust-1"
        { fromAccountId := "acc-cur", toAccountId := "acc-sav", amount := 200 }
        demoStore NewMockClient "tx-1" "tx-2" "tx-3" 0 = (Except.ok "tx-1", s2, c2) ∧
      transferFee { id := "acc-cur", customerId := "cust-1", kind := "current", balance := 1000, createdAt := 0 } 200 = 0.1 ∧
      transferInterest { id := "acc-sav", customerId := "cust-1", kind := "savings", balance := 500, createdAt := 0 } 200 = 1 ∧
      s2.accounts "acc-cur" = some { id := "acc-cur", customerId := "cust-1", kind := "current", balance := 799.9, createdAt := 0 } ∧
      s2.accounts "acc-sav" = some { id := "acc-sav", customerId := "cust-1", kind := "savings", balance := 500 + 201, createdAt := 0 } ∧
      s2.transactions "tx-1" = some { id := "tx-1", accountId := "acc-cur", customerId := "cust-1", kind := "transfer", amount := 200, fromAccountId := "acc-cur", toAccountId := "acc-sav", createdAt := 0 } ∧
      s2.transactions "tx-2" = some { id := "tx-2", accountId := "acc-cur", customerId := "cust-1", kind := "fee", amount := 0.1, fromAccountId := "", toAccountId := "", createdAt := 0 } ∧
      s2.transactions "tx-3" = some { id := "tx-3", accountId := "acc-sav", customerId := "cust-1", kind := "interest", amount := 1, fromAccountId := "", toAccountId := "", createdAt := 0 } ∧
      (∀ k, k ≠ "tx-1" → k ≠ "tx-2" → k ≠ "tx-3" → s2.transactions k = none) := by
  have htok : (mockGateway 0).getToken NewMockClient =
      (Except.ok "token-0",
       { NewMockClient with token := some { accessToken := "token-0", expiresAt := 0 + nsPerHour } }) := rfl
  have hpath := transferMoney_internal_path (mockGateway 0)
    "cust-1" { fromAccountId := "acc-cur", toAccountId := "acc-sav", amount := 200 }
    demoStore NewMockClient
    { NewMockClient with token := some { accessToken := "token-0", expiresAt := 0 + nsPerHour } }
    { id := "cust-1", name := "Jane Doe", email := "jane@example.com" }
    { id := "acc-cur", customerId := "cust-1", kind := "current", balance := 1000, createdAt := 0 }
    { id := "acc-sav", customerId := "cust-1", kind := "savings", balance := 500, createdAt := 0 }
    "token-0" "tx-1" "tx-2" "tx-3" 0 rfl rfl htok rfl rfl rfl rfl
  have hins : ¬ (1000 : ℚ) <
      (200 : ℚ) + transferFee { id := "acc-cur", customerId := "cust-1", kind := "current", balance := 1000, createdAt := 0 } 200 := by
    norm_num [transferFee]
  obtain ⟨hfst, hfromL, htoL, -, -, htxFrame, htx1, htx2, htx3⟩ := internalTransfer_commit
    "cust-1" { fromAccountId := "acc-cur", toAccountId := "acc-sav", amount := 200 }
    { id := "acc-cur", customerId := "cust-1", kind := "current", balance := 1000, createdAt := 0 }
    { id := "acc-sav", customerId := "cust-1", kind := "savings", balance := 500, createdAt := 0 }
    demoStore "tx-1" "tx-2" "tx-3" 0
    hins (by decide)
  refine ⟨(internalTransfer "cust-1"
      { fromAccountId := "acc-cur", toAccountId := "acc-sav", amount := 200 }
      { id := "acc-cur", customerId := "cust-1", kind := "current", balance := 1000, createdAt := 0 }
      { id := "acc-sav", customerId := "cust-1", kind := "savings", balance := 500, createdAt := 0 }
      demoStore "tx-1" "tx-2" "tx-3" 0).2,
    { NewMockClient with token := some { accessToken := "token-0", expiresAt := 0 + nsPerHour } },
    ?_, by norm_num [transferFee], by norm_num [transferInterest],
    ?_, ?_, ?_, ?_, ?_, ?_⟩
  · rw [hpath, hfst]
  · exact hfromL.trans (by norm_num [transferFee])
  · exact htoL.trans (by norm_num [transferInterest])
  · exact htx1 (by decide) (by decide)
  · refine (htx2 (by decide) (by norm_num [transferFee])).trans ?_
    norm_num [transferFee]
  · refine (htx3 (by norm_num [transferInterest])).trans ?_
    norm_num [transferInterest]
  · intro k h1 h2 h3
    rw [htxFrame k h1 h2 h3]
    rfl

/-- C9 witness: the scenario run instantiated at the concrete unused key
tx-other, whose transaction slot stays empty. -/
theorem scenario_transfer_200_current_to_savings_witness :
    ("tx-other" : String) ≠ "tx-1" ∧
    (∃ (s2 : Store) (c2 : MockClient),
      transferMoney (mockGateway 0) "cust-1"
        { fromAccountId := "acc-cur", toAccountId := "acc-sav", amount := 200 }
        demoStore NewMockClient "tx-1" "tx-2" "tx-3" 0 = (Except.ok "tx-1", s2, c2) ∧
      s2.transactions "tx-other" = none) := by
  obtain ⟨s2, c2, hrun, -, -, -, -, -, -, -, hnone⟩ := scenario_transfer_200_current_to_savings
  exact ⟨by decide, s2, c2, hrun, hnone "tx-other" (by decide) (by decide) (by decide)⟩

/-- C10: an accepted internal transfer changes no account other than source
and destination, no customer record at all, and no transaction slot other
than the freshly generated transfer / fee / interest IDs; the transfer record
itself is stored under the returned ID. -/
theorem internal_transfer_frame {γ : Type} (G : Gateway γ)
    (customerID : String) (req : TransferRequest) (s : Store) (g g1 : γ)
    (cust : Customer) (fromAccount toAccount : Account) (token : String)
    (t1 t2 t3 : String) (now : Int)
    (hval : validateTransferRequest req = [])
    (hcust : s.customers customerID = some cust)
    (htok : G.getToken g = (Except.ok token, g1))
    (hfrom : s.accounts req.fromAccountId = some fromAccount)
    (hfromId : fromAccount.id = req.fromAccountId)
    (hfromOwn : fromAccount.customerId = customerID)
    (hto : s.accounts req.toAccountId = some toAccount)
    (htoId : toAccount.id = req.toAccountId)
    (htoOwn : toAccount.customerId = customerID)
    (hsuff : req.amount + transferFee fromAccount req.amount ≤ fromAccount.balance)
    (ht12 : t1 ≠ t2) (ht13 : t1 ≠ t3) :
    ∃ s2, transferMoney G customerID req s g t1 t2 t3 now = (Except.ok t1, s2, g1) ∧
      (∀ k, k ≠ req.fromAccountId → k ≠ req.toAccountId → s2.accounts k = s.accounts k) ∧
      (∀ k, s2.customers k = s.customers k) ∧
      (∀ k, k ≠ t1 → k ≠ t2 → k ≠ t3 → s2.transactions k = s.transactions k) ∧
      s2.transactions t1 = some { id := t1, accountId := fromAccount.id, customerId := customerID, kind := "transfer", amount := req.amount, fromAccountId := fromAccount.id, toAccountId := toAccount.id, createdAt := now } := by
  have hpath := transferMoney_internal_path G customerID req s g g1 cust fromAccount toAccount
    token t1 t2 t3 now hval hcust htok hfrom hfromOwn hto htoOwn
  have hins : ¬ fromAccount.balance < req.amount + transferFee fromAccount req.amount :=
    not_lt.mpr hsuff
  have hne : fromAccount.id ≠ toAccount.id := by
    rw [hfromId, htoId]
    exact (validateTransferRequest_eq_nil hval).2.2.2
  obtain ⟨hfst, -, -, haccFrame, hcustEq, htxFrame, htx1, -, -⟩ := internalTransfer_commit
    customerID req fromAccount toAccount s t1 t2 t3 now hins hne
  refine ⟨(internalTransfer customerID req fromAccount toAccount s t1 t2 t3 now).2,
    ?_, ?_, hcustEq, htxFrame, htx1 ht12 ht13⟩
  · rw [hpath, hfst]
  · intro k h1 h2
    refine haccFrame k ?_ ?_
    · rw [hfromId]
      exact h1
    · rw [htoId]
      exact h2

/-- C10 witness: the demo internal transfer leaves an unrelated account key,
customer key and transaction key untouched. -/
theorem internal_transfer_frame_witness :
    ∃ s2, transferMoney (constGateway (Except.ok "tok") (Except.error "e") (Except.error "e"))
        "cust-1" { fromAccountId := "acc-cur", toAccountId := "acc-sav", amount := 200 }
        demoStore () "tx-1" "tx-2" "tx-3" 0 = (Except.ok "tx-1", s2, ()) ∧
      (∀ k, k ≠ "acc-cur" → k ≠ "acc-sav" → s2.accounts k = demoStore.accounts k) ∧
      (∀ k, s2.customers k = demoStore.customers k) ∧
      (∀ k, k ≠ "tx-1" → k ≠ "tx-2" → k ≠ "tx-3" → s2.transactions k = demoStore.transactions k) ∧
      s2.transactions "tx-1" = some { id := "tx-1", accountId := "acc-cur", customerId := "cust-1", kind := "transfer", amount := 200, fromAccountId := "acc-cur", toAccountId := "acc-sav", createdAt := 0 } :=
  internal_transfer_frame
    (constGateway (Except.ok "tok") (Except.error "e") (Except.error "e"))
    "cust-1" { fromAccountId := "acc-cur", toAccountId := "acc-sav", amount := 200 }
    demoStore () ()
    { id := "cust-1", name := "Jane Doe", email := "jane@example.com" }
    { id := "acc-cur", customerId := "cust-1", kind := "current", balance := 1000, createdAt := 0 }
    { id := "acc-sav", customerId := "cust-1", kind := "savings", balance := 500, createdAt := 0 }
    "tok" "tx-1" "tx-2" "tx-3" 0
    rfl rfl rfl rfl rfl rfl rfl rfl rfl (by norm_num [transferFee]) (by decide) (by decide)

end GoBanking
